import Mathlib

/-!
# dcp: path classification, skip filter and the driver

A shallow embedding of `src/dcp/dcp.c` (the skip filter `DCOPY_input_flist_skip`
and `main`) and of `src/handle_args.c` (the destination classifier
`DCOPY_dest_is_dir`, `DCOPY_source_file_count`, `DCOPY_enqueue_work_objects`
and the argument parser `DCOPY_parse_src_paths`).

Conventions of the embedding.

* Library routines that the two files call but do not define (the `mfu_*`
  library, `DCOPY_is_directory`, `DCOPY_is_regular_file`, libc) are parameters
  of the embedded functions: a theorem that quantifies over them holds for
  every behaviour of the library.
* Calls with an effect outside the process (logging, walking, copying) are
  recorded, in program order, in an explicit trace.
* Loops whose termination is not evident from the text take a fuel argument
  and return `none` when the fuel runs out.
-/

set_option autoImplicit false

namespace Dcp

/-! ## The skip filter of `dcp.c` -/

/-- Modelled from the spec: the result type of `mfu_path_cmp`, declared in
`mfu.h`, which is not among the sources.  `dcp.c` names the two enumerators
`MFU_PATH_EQUAL` and `MFU_PATH_SRC_CHILD`; the other two stand for "the second
path lies inside the first" and "neither contains the other". -/
inductive mfu_path_result
  | MFU_PATH_EQUAL
  | MFU_PATH_SRC_CHILD
  | MFU_PATH_DEST_CHILD
  | MFU_PATH_DIFF
  deriving DecidableEq, Repr

open mfu_path_result

/-- One element of `params_ptr->src_params`: `dcp.c` reads its `path` field. -/
structure mfu_param_path where
  path : String
  deriving DecidableEq, Repr

/-- The object behind `params_ptr`: the array `src_params`; its length is
`num_src_params`. -/
structure mfu_copy_params where
  src_params : List mfu_param_path
  deriving Repr

/-- Length of the source array, the bound of the loop in
`DCOPY_input_flist_skip`. -/
def mfu_copy_params.num_src_params (p : mfu_copy_params) : Nat :=
  p.src_params.length

/-- The body of the `for` loop of `DCOPY_input_flist_skip` (dcp.c:41-57) run
over the remaining source parameters: the first source whose comparison with
`name` is `MFU_PATH_SRC_CHILD` or `MFU_PATH_EQUAL` returns 0, and the fall
through after the last one returns 1.  `cmp name src` stands for
`mfu_path_cmp(mfu_path_from_str(name), mfu_path_from_str(src))`. -/
def DCOPY_input_flist_skip.loop (cmp : String → String → mfu_path_result)
    (name : String) : List mfu_param_path → Int
  | [] => 1
  | src :: rest =>
    let result := cmp name src.path
    if result = MFU_PATH_SRC_CHILD ∨ result = MFU_PATH_EQUAL then 0
    else DCOPY_input_flist_skip.loop cmp name rest

/-- Embedding of `DCOPY_input_flist_skip` (dcp.c:34-64). -/
def DCOPY_input_flist_skip (cmp : String → String → mfu_path_result)
    (params_ptr : mfu_copy_params) (name : String) : Int :=
  DCOPY_input_flist_skip.loop cmp name params_ptr.src_params

/-- Modelled from the spec: `mfu_path_from_str`, which is not among the
sources.  A path is the sequence of its components, the pieces between the
`/` separators ("path-string primitives", spec section 1). -/
def mfu_path_from_str.go : List Char → List Char → List (List Char)
  | acc, [] => [acc.reverse]
  | acc, c :: cs =>
    if c = '/' then acc.reverse :: mfu_path_from_str.go [] cs
    else mfu_path_from_str.go (c :: acc) cs

/-- Modelled from the spec: `mfu_path_from_str` on a string. -/
def mfu_path_from_str (s : String) : List (List Char) :=
  mfu_path_from_str.go [] s.data

/-- Modelled from the spec: `mfu_path_cmp`, which is not among the sources: a
"path-containment comparison, not string prefix matching" (spec section 4.5),
component by component.  Equal sequences are `MFU_PATH_EQUAL`; when the second
sequence is used up first the first path lies inside the second
(`MFU_PATH_SRC_CHILD`); when the first is used up first it is the other way
round; a differing component gives `MFU_PATH_DIFF`. -/
def mfu_path_cmp : List (List Char) → List (List Char) → mfu_path_result
  | [], [] => MFU_PATH_EQUAL
  | _ :: _, [] => MFU_PATH_SRC_CHILD
  | [], _ :: _ => MFU_PATH_DEST_CHILD
  | a :: as, b :: bs => if a = b then mfu_path_cmp as bs else MFU_PATH_DIFF

/-- Modelled from the spec: the comparison `dcp.c` performs on two path
strings, `mfu_path_cmp(mfu_path_from_str(name), mfu_path_from_str(src))`. -/
def mfu_path_cmp_str (name src : String) : mfu_path_result :=
  mfu_path_cmp (mfu_path_from_str name) (mfu_path_from_str src)

/-! ## `handle_args.c`: values and state -/

/-- A value of type `char*`.  `null` is `NULL`, `str s` the address of the
NUL-terminated string `s`, and `raw a` the byte address `a` of storage that
was not written as a string (a cursor that walks the bytes of the pointer
array `src_path`). -/
inductive CharPtr
  | null
  | str (s : String)
  | raw (addr : Nat)
  deriving DecidableEq, Repr

/-- A value of type `char**`, the field `src_path`: the address of the block
(`0` is `NULL`) and the entries stored in it so far, `elems[i]` being
`src_path[i]`. -/
structure SrcPathArray where
  addr : Nat
  elems : List CharPtr
  deriving DecidableEq, Repr

/-- Read `src_path[i]`.  `DCOPY_parse_src_paths` zeroes the head of the block
(handle_args.c:215), so an entry that was never stored reads as `NULL`. -/
def SrcPathArray.read (a : SrcPathArray) (i : Nat) : CharPtr :=
  a.elems.getD i CharPtr.null

/-- Write `src_path[i] = p` into a block of `slots` entries.  The source
stores without a bound check (handle_args.c:218); a store at an index outside
the block has no defined result, which is `none`. -/
def SrcPathArray.store (a : SrcPathArray) (slots : Nat) (i : Nat) (p : CharPtr) :
    Option SrcPathArray :=
  if i < slots then
    some { a with
      elems := (a.elems ++ List.replicate (i + 1 - a.elems.length) CharPtr.null).set i p }
  else none

/-- The fields of `DCOPY_options_t` that `handle_args.c` and `dcp.c` use.
The type is declared in `dcp.h`, which is not among the sources; the fields
are the ones the two files read or write. -/
structure DCOPY_options_t where
  dest_path : CharPtr
  src_path : SrcPathArray
  dest_base_index : Nat
  recursive : Bool
  recursive_unspecified : Bool
  preserve : Bool
  chunk_size : Nat
  grouplock_id : Int
  deriving DecidableEq, Repr

/-- The global `DCOPY_user_opts` (handle_args.c:23) at program start: an
object of static storage duration without initialiser, hence all zero. -/
def DCOPY_user_opts : DCOPY_options_t :=
  { dest_path := CharPtr.null
    src_path := { addr := 0, elems := [] }
    dest_base_index := 0
    recursive := false
    recursive_unspecified := false
    preserve := false
    chunk_size := 0
    grouplock_id := 0 }

/-- The routines `handle_args.c` calls and does not define: the two file
tests of `filestat.h` and the libc functions.  `malloc` is the address the
allocation in `DCOPY_parse_src_paths` returns; allocation failure is outside
the model, so the address is not `NULL`.  `ARG_MAX` is the constant of
`limits.h` (or its fallback `_POSIX_ARG_MAX`, handle_args.c:18-20) that sizes
the allocation. -/
structure HostEnv where
  ARG_MAX : Nat
  DCOPY_is_directory : CharPtr → Bool
  DCOPY_is_regular_file : CharPtr → Bool
  realpath : String → CharPtr
  strlen : CharPtr → Nat
  basename : CharPtr → CharPtr
  strerror_errno : String
  malloc : Nat
  malloc_ok : malloc ≠ 0

/-- The two levels of the `LOG` calls in `handle_args.c` (declared in
`log.h`, not among the sources). -/
inductive DCOPY_loglevel
  | DCOPY_LOG_ERR
  | DCOPY_LOG_DBG
  deriving DecidableEq, Repr

open DCOPY_loglevel

/-- One `LOG(level, format, args...)` call. -/
structure LogCall where
  level : DCOPY_loglevel
  format : String
  args : List CharPtr
  deriving DecidableEq, Repr

/-- The value of `EXIT_FAILURE` of `stdlib.h`. -/
def EXIT_FAILURE : Int := 1

/-! ## `handle_args.c`: the classifier -/

/-- The loop of `DCOPY_source_file_count` (handle_args.c:147-151):
`char* src_path = DCOPY_user_opts.src_path; while(src_path++ != NULL) count++`.
The cursor is the address of the block itself, one byte further on every
turn, and the condition compares that address (before the increment) with
`NULL`; it does not read the entries.  The body touches nothing but the
counter, so the loop runs to its end: the cursor is a 64-bit word that wraps
to 0 after the last address, and the counter is a `uint32_t`.  Stepping the
pointer past the block is undefined in C, and a build that folds the loop may
return another constant; what is proved of the callers holds for every count
other than 1. -/
def DCOPY_source_file_count.loop : Nat → Nat → Nat → Option Nat
  | 0, _, _ => none
  | fuel + 1, src_path, source_file_count =>
    if src_path ≠ 0 then
      DCOPY_source_file_count.loop fuel ((src_path + 1) % 2 ^ 64)
        ((source_file_count + 1) % 2 ^ 32)
    else some source_file_count

/-- Embedding of `DCOPY_source_file_count` (handle_args.c:144-154); `none`
when the loop has not ended within `fuel` turns. -/
def DCOPY_source_file_count (opts : DCOPY_options_t) (fuel : Nat) : Option Nat :=
  DCOPY_source_file_count.loop fuel opts.src_path.addr 0

/-- The loop of `DCOPY_dest_is_dir` (handle_args.c:125-130): a cursor that
starts at the address of the block and is compared with `NULL` before each
increment, as in `DCOPY_source_file_count`; the body tests the cursor after
the increment, a byte address inside the pointer array, with
`DCOPY_is_regular_file`.  Every turn is a file test, and a cursor that starts
at an allocated block does not come to `NULL` within a run: here addresses are
natural numbers, so a step from a non-null address is non-null. -/
def DCOPY_dest_is_dir.loop (env : HostEnv) : Nat → Nat → Bool → Option Bool
  | 0, _, _ => none
  | fuel + 1, src_path, dest_path_is_dir =>
    if src_path ≠ 0 then
      let src_path := src_path + 1
      let dest_path_is_dir :=
        if env.DCOPY_is_regular_file (CharPtr.raw src_path) then false else dest_path_is_dir
      DCOPY_dest_is_dir.loop env fuel src_path dest_path_is_dir
    else some dest_path_is_dir

/-- Embedding of `DCOPY_dest_is_dir` (handle_args.c:95-142); `none` when the
scan of the sources has not ended within `fuel` turns. -/
def DCOPY_dest_is_dir (env : HostEnv) (opts : DCOPY_options_t) (fuel : Nat) : Option Bool :=
  if env.DCOPY_is_directory opts.dest_path then
    some false
  else if env.DCOPY_is_regular_file opts.dest_path then
    some true
  else
    if opts.recursive || opts.recursive_unspecified then
      DCOPY_dest_is_dir.loop env fuel opts.src_path.addr true
    else
      some false

/-- What a routine of `handle_args.c` leaves behind: the options, the `LOG`
calls in program order, and the status passed to `exit` if it called it. -/
structure Outcome where
  opts : DCOPY_options_t
  log : List LogCall
  exit : Option Int
  deriving DecidableEq, Repr

/-- The loop of the directory branch of `DCOPY_enqueue_work_objects`
(handle_args.c:78-82), one debug line per turn. -/
def DCOPY_enqueue_work_objects.loop : Nat → Nat → List LogCall → Option (List LogCall)
  | 0, _, _ => none
  | fuel + 1, src_path, log =>
    if src_path ≠ 0 then
      let src_path := src_path + 1
      DCOPY_enqueue_work_objects.loop fuel src_path
        (log ++ [⟨DCOPY_LOG_DBG, "Enqueueing source path `%s'.", [CharPtr.raw src_path]⟩])
    else some log

/-- The body of `DCOPY_enqueue_work_objects` after its two calls
(handle_args.c:54-90), for the values `dest_is_dir` and
`number_of_source_files` they returned. -/
def DCOPY_enqueue_work_objects.body (env : HostEnv) (opts : DCOPY_options_t)
    (dest_is_dir : Bool) (number_of_source_files : Nat) (fuel : Nat) : Option Outcome :=
  let dest_is_file := !dest_is_dir
  if dest_is_file then
    if number_of_source_files = 1 ∧ env.DCOPY_is_regular_file (opts.src_path.read 0) = true then
      some { opts := { opts with dest_base_index := env.strlen (env.basename opts.dest_path) }
             log := [⟨DCOPY_LOG_DBG, "Enqueueing only source path `%s'.", [opts.src_path.read 0]⟩]
             exit := none }
    else
      some { opts := opts
             log := [⟨DCOPY_LOG_ERR, "Error: Impossible condition catch-all.", []⟩]
             exit := none }
  else if dest_is_dir then
    let opts := { opts with dest_base_index := env.strlen opts.dest_path }
    match DCOPY_enqueue_work_objects.loop fuel opts.src_path.addr [] with
    | none => none
    | some log => some { opts := opts, log := log, exit := none }
  else
    some { opts := opts
           log := [⟨DCOPY_LOG_ERR, "We've encountered an unsupported filetype.", []⟩]
           exit := none }

/-- Embedding of `DCOPY_enqueue_work_objects` (handle_args.c:47-93); the
handle is not used by the body.  `none` when one of the loops it runs has not
ended within `fuel` turns. -/
def DCOPY_enqueue_work_objects (env : HostEnv) (opts : DCOPY_options_t) (fuel : Nat) :
    Option Outcome :=
  match DCOPY_dest_is_dir env opts fuel with
  | none => none
  | some dest_is_dir =>
    match DCOPY_source_file_count opts fuel with
    | none => none
    | some number_of_source_files =>
      DCOPY_enqueue_work_objects.body env opts dest_is_dir number_of_source_files fuel

/-! ## `handle_args.c`: the source arguments -/

/-- The `for` loop of `DCOPY_parse_src_paths` (handle_args.c:217-233) with
`n` turns left, at index `opt_index`.  The block holds `ARG_MAX + 1` entries
(handle_args.c:214); `none` when a turn stores outside it. -/
def DCOPY_parse_src_paths.loop (env : HostEnv) (argv : Int → String) (optind_local : Int)
    (destination_is_file : Bool) : Nat → Int → DCOPY_options_t → Option Outcome
  | 0, _, opts => some { opts := opts, log := [], exit := none }
  | n + 1, opt_index, opts =>
    match opts.src_path.store (env.ARG_MAX + 1) (opt_index - optind_local).toNat
        (env.realpath (argv opt_index)) with
    | none => none
    | some src_path =>
      let opts := { opts with src_path := src_path }
      if opts.dest_path = CharPtr.null then
        some { opts := opts
               log := [⟨DCOPY_LOG_ERR, "Could not determine the path for `%s'. %s",
                        [CharPtr.str (argv opt_index), CharPtr.str env.strerror_errno]⟩]
               exit := some EXIT_FAILURE }
      else if destination_is_file = true ∧
          env.DCOPY_is_directory (opts.src_path.read (opt_index - optind_local).toNat) = true then
        some { opts := opts
               log := [⟨DCOPY_LOG_ERR, "Cannot overwrite non-directory `%s' with directory `%s'",
                        [opts.dest_path, opts.src_path.read (opt_index - optind_local).toNat]⟩]
               exit := some EXIT_FAILURE }
      else
        DCOPY_parse_src_paths.loop env argv optind_local destination_is_file n (opt_index + 1)
          opts

/-- Embedding of `DCOPY_parse_src_paths` (handle_args.c:200-234).  The loop
runs for `opt_index` from `optind_local` while `opt_index < last_arg_index`,
that is `last_arg_index - optind_local` turns unless it exits first.  `none`
when a source was stored outside the allocated block. -/
def DCOPY_parse_src_paths (env : HostEnv) (opts : DCOPY_options_t) (argv : Int → String)
    (last_arg_index optind_local : Int) : Option Outcome :=
  let destination_is_file := env.DCOPY_is_regular_file opts.dest_path
  let opts := { opts with src_path := { addr := env.malloc, elems := [] } }
  DCOPY_parse_src_paths.loop env argv optind_local destination_is_file
    (last_arg_index - optind_local).toNat optind_local opts

/-! ## `dcp.c`: the driver `main` -/

/-- The levels `main` assigns to `mfu_debug_level` or passes to `MFU_LOG`. -/
inductive mfu_loglevel
  | MFU_LOG_FATAL
  | MFU_LOG_ERR
  | MFU_LOG_WARN
  | MFU_LOG_INFO
  | MFU_LOG_VERBOSE
  | MFU_LOG_DBG
  deriving DecidableEq, Repr

/-- The levels `main` assigns to `CIRCLE_debug`. -/
inductive CIRCLE_loglevel
  | CIRCLE_LOG_FATAL
  | CIRCLE_LOG_ERR
  | CIRCLE_LOG_WARN
  | CIRCLE_LOG_DBG
  deriving DecidableEq, Repr

open mfu_loglevel CIRCLE_loglevel

/-- A file list (`mfu_flist`): the names of its entries. -/
abbrev mfu_flist := List String

/-- The library routines `main` calls and `dcp.c` does not define, as
functions of their arguments.  `mfu_param_path_check_copy` gives the two
output flags `(valid, copy_into_dir)`; its third argument is the element
`destpath` points at, `none` when the pointer is not inside the array.
`mfu_flist_copy` gives the number of items whose copy failed. -/
structure MfuLib where
  mfu_param_path_set : String → mfu_param_path
  mfu_param_path_check_copy : Int → List mfu_param_path → Option mfu_param_path → Bool × Bool
  mfu_param_path_walk : Int → List mfu_param_path → Int → Int → mfu_flist
  mfu_flist_read_cache : Option String → mfu_flist
  mfu_flist_stat : mfu_flist → (String → Int) → mfu_flist
  mfu_flist_copy : mfu_flist → Bool → Int → Nat
  mfu_path_cmp : String → String → mfu_path_result
  atoi : String → Int

/-- The calls `main` makes, as recorded in the trace. -/
inductive Call
  | MPI_Init
  | mfu_init
  | MFU_LOG (level : mfu_loglevel) (format : String) (args : List String)
  | printf (format : String) (c : Char)
  | print_usage
  | mfu_param_path_set_all (numpaths : Int) (argpaths : List String)
  | mfu_param_path_check_copy (num : Int) (destpath : Option mfu_param_path)
  | mfu_flist_new
  | mfu_param_path_walk (num : Int) (walk_stat dir_perm : Int)
  | mfu_flist_read_cache (name : Option String)
  | mfu_flist_stat (input : mfu_flist)
  | mfu_flist_free
  | mfu_flist_copy (flist : mfu_flist) (preserve : Bool) (arg : Int) (failed : Nat)
  | mfu_param_path_free_all (numpaths : Int)
  | mfu_free
  | mfu_finalize
  | MPI_Finalize
  deriving DecidableEq, Repr

/-- One turn of the option loop: the value `getopt_long` returned (an option
character, or `?` for an option it does not know) and `optarg`. -/
structure GetoptResult where
  c : Char
  optarg : String
  deriving DecidableEq, Repr

/-- The local variables of `main` that the option loop assigns, the global
`DCOPY_user_opts`, and the trace. -/
structure MainState where
  CIRCLE_debug : CIRCLE_loglevel
  mfu_debug_level : mfu_loglevel
  DCOPY_user_opts : DCOPY_options_t
  inputname : Option String
  walk : Int
  preserve : Int
  synchronous : Int
  sparse : Int
  usage : Int
  trace : List Call
  deriving DecidableEq, Repr

/-- A call guarded by `if(rank == 0)`: recorded on rank 0 only. -/
def MainState.rank0 (st : MainState) (rank : Int) (c : Call) : MainState :=
  if rank = 0 then { st with trace := st.trace ++ [c] } else st

/-- The statement `if(rank == 0) { MFU_LOG(level, format, args); }`. -/
def MainState.log0 (st : MainState) (rank : Int) (level : mfu_loglevel) (format : String)
    (args : List String) : MainState :=
  st.rank0 rank (Call.MFU_LOG level format args)

/-- The test `strncmp(optarg, word, n) == 0` for `n` the length of `word`:
`optarg` begins with `word`. -/
def strncmp_eq (optarg word : String) : Bool :=
  word.data.isPrefixOf optarg.data

/-- The state of `main` when the option loop starts (dcp.c:99-143). -/
def main.init : MainState :=
  { CIRCLE_debug := CIRCLE_LOG_WARN
    mfu_debug_level := MFU_LOG_INFO
    DCOPY_user_opts := { DCOPY_user_opts with chunk_size := 1 * 1024 * 1024 }
    inputname := none
    walk := 0
    preserve := 0
    synchronous := 0
    sparse := 0
    usage := 0
    trace := [Call.MPI_Init, Call.mfu_init] }

/-- The two debug levels a state carries, assigned together in `case 'd'`. -/
def MainState.setDebug (st : MainState) (c : CIRCLE_loglevel) (m : mfu_loglevel) : MainState :=
  { st with CIRCLE_debug := c, mfu_debug_level := m }

/-- The `case 'd'` of the option switch (dcp.c:155-197). -/
def main.option_d (rank : Int) (st : MainState) (optarg : String) : MainState :=
  if strncmp_eq optarg "fatal" then
    (st.setDebug CIRCLE_LOG_FATAL MFU_LOG_FATAL).log0 rank
      MFU_LOG_INFO "Debug level set to: fatal" []
  else if strncmp_eq optarg "err" then
    (st.setDebug CIRCLE_LOG_ERR MFU_LOG_ERR).log0 rank
      MFU_LOG_INFO "Debug level set to: errors" []
  else if strncmp_eq optarg "warn" then
    (st.setDebug CIRCLE_LOG_WARN MFU_LOG_WARN).log0 rank
      MFU_LOG_INFO "Debug level set to: warnings" []
  else if strncmp_eq optarg "info" then
    (st.setDebug CIRCLE_LOG_WARN MFU_LOG_INFO).log0 rank
      MFU_LOG_INFO "Debug level set to: info" []
  else if strncmp_eq optarg "dbg" then
    (st.setDebug CIRCLE_LOG_DBG MFU_LOG_DBG).log0 rank
      MFU_LOG_INFO "Debug level set to: debug" []
  else
    st.log0 rank MFU_LOG_INFO "Debug level `%s' not recognized. Defaulting to `info'." [optarg]

/-- The `switch(c)` of the option loop (dcp.c:154-244).  `LUSTRE_SUPPORT`
tells whether the case `g` was compiled in. -/
def main.option (lib : MfuLib) (LUSTRE_SUPPORT : Bool) (rank : Int) (st : MainState)
    (o : GetoptResult) : MainState :=
  if o.c = 'd' then
    main.option_d rank st o.optarg
  else if o.c = 'g' ∧ LUSTRE_SUPPORT = true then
    ({ st with DCOPY_user_opts :=
        { st.DCOPY_user_opts with grouplock_id := lib.atoi o.optarg } }).log0 rank
      MFU_LOG_INFO "groulock ID: %d." [o.optarg]
  else if o.c = 'i' then
    ({ st with inputname := some o.optarg }).log0 rank MFU_LOG_INFO "Using input list." []
  else if o.c = 'p' then
    ({ st with preserve := 1 }).log0 rank MFU_LOG_INFO "Preserving file attributes." []
  else if o.c = 's' then
    ({ st with synchronous := 1 }).log0 rank
      MFU_LOG_INFO "Using synchronous read/write (O_DIRECT)" []
  else if o.c = 'S' then
    ({ st with sparse := 1 }).log0 rank MFU_LOG_INFO "Using sparse file" []
  else if o.c = 'v' then
    { st with mfu_debug_level := MFU_LOG_VERBOSE }
  else if o.c = 'h' then
    { st with usage := 1 }
  else if o.c = '?' then
    { st with usage := 1 }
  else
    st.rank0 rank (Call.printf "?? getopt returned character code 0%o ??\n" o.c)

/-- The option loop (dcp.c:144-245): one `switch` per value `getopt_long`
returns, until it returns -1. -/
def main.options (lib : MfuLib) (LUSTRE_SUPPORT : Bool) (rank : Int) (st : MainState)
    (opts : List GetoptResult) : MainState :=
  opts.foldl (main.option lib LUSTRE_SUPPORT rank) st

/-- What a run of `main` leaves behind: the value returned and the calls made,
in program order. -/
structure Run where
  status : Int
  trace : List Call
  deriving DecidableEq, Repr

/-- The value of `numpaths` after dcp.c:248-271: `argc - optind` when
`optind < argc`, else the initial 0. -/
def main.numpaths (argpaths : List String) : Int :=
  if argpaths ≠ [] then argpaths.length else 0

/-- The array `paths` after dcp.c:248-271: one parameter per path argument,
filled by `mfu_param_path_set_all`; empty (`NULL`) without path arguments. -/
def main.paths (lib : MfuLib) (argpaths : List String) : List mfu_param_path :=
  if argpaths ≠ [] then argpaths.map lib.mfu_param_path_set else []

/-- The element `destpath = &paths[numpaths-1]` points at (dcp.c:281), `none`
when `numpaths-1` is not an index of `paths`. -/
def main.destpath (lib : MfuLib) (argpaths : List String) : Option mfu_param_path :=
  if 0 ≤ main.numpaths argpaths - 1 then
    (main.paths lib argpaths).get? (main.numpaths argpaths - 1).toNat
  else none

/-- The flag `valid` that `mfu_param_path_check_copy` sets for the call
`main` makes (dcp.c:285). -/
def main.valid (lib : MfuLib) (argpaths : List String) : Bool :=
  (lib.mfu_param_path_check_copy (main.numpaths argpaths - 1) (main.paths lib argpaths)
    (main.destpath lib argpaths)).1

/-- The state after the path arguments were taken (dcp.c:247-278): with
path arguments `walk` is set, `mfu_param_path_set_all` is called and an input
file is a usage error; without them a missing input file is one. -/
def main.arguments (lib : MfuLib) (LUSTRE_SUPPORT : Bool) (rank : Int)
    (opts : List GetoptResult) (argpaths : List String) : MainState :=
  let st := main.options lib LUSTRE_SUPPORT rank main.init opts
  if argpaths ≠ [] then
    { st with
      walk := 1
      trace := st.trace ++ [Call.mfu_param_path_set_all (main.numpaths argpaths) argpaths]
      usage := if st.inputname ≠ none then 1 else st.usage }
  else
    { st with usage := if st.inputname = none then 1 else st.usage }

/-- The file list `main` builds (dcp.c:310-324) and the calls it makes for
it: a walk of the sources, or the cached list filtered by the stat pass. -/
def main.flist (lib : MfuLib) (params_ptr : mfu_copy_params) (walk : Int)
    (inputname : Option String) (numpaths_src : Int) (paths : List mfu_param_path) :
    mfu_flist × List Call :=
  if walk ≠ 0 then
    let walk_stat : Int := 1
    let dir_perm : Int := 0
    (lib.mfu_param_path_walk numpaths_src paths walk_stat dir_perm,
      [Call.mfu_flist_new, Call.mfu_param_path_walk numpaths_src walk_stat dir_perm])
  else
    let input_flist := lib.mfu_flist_read_cache inputname
    (lib.mfu_flist_stat input_flist (DCOPY_input_flist_skip lib.mfu_path_cmp params_ptr),
      [Call.mfu_flist_new, Call.mfu_flist_new, Call.mfu_flist_read_cache inputname,
       Call.mfu_flist_stat input_flist, Call.mfu_flist_free])

/-- Embedding of `main` (dcp.c:96-346).  `opts` are the values `getopt_long`
returns in turn and `argpaths` the arguments left after the options
(`argv[optind] .. argv[argc-1]`); `params_ptr` is the global the skip filter
reads. -/
def main (lib : MfuLib) (LUSTRE_SUPPORT : Bool) (rank : Int) (params_ptr : mfu_copy_params)
    (opts : List GetoptResult) (argpaths : List String) : Run :=
  let st := main.arguments lib LUSTRE_SUPPORT rank opts argpaths
  let numpaths : Int := main.numpaths argpaths
  let paths : List mfu_param_path := main.paths lib argpaths
  -- last item in the list is the destination path
  let destpath : Option mfu_param_path := main.destpath lib argpaths
  -- parse the source and destination paths
  let valid := main.valid lib argpaths
  let st := { st with trace := st.trace ++ [Call.mfu_param_path_check_copy (numpaths - 1) destpath] }
  if !valid then
    -- exit job if we found a problem
    let st := st.rank0 rank (Call.MFU_LOG MFU_LOG_ERR "Exiting run" [])
    { status := 1, trace := st.trace ++ [Call.mfu_finalize, Call.MPI_Finalize] }
  else if st.usage ≠ 0 then
    -- print usage if we need to
    let st := st.rank0 rank Call.print_usage
    { status := 1, trace := st.trace ++ [Call.mfu_finalize, Call.MPI_Finalize] }
  else
    -- the last path is the destination path, all others are source paths
    let numpaths_src := numpaths - 1
    let built := main.flist lib params_ptr st.walk st.inputname numpaths_src paths
    let flist := built.1
    -- copy flist into destination
    let failed := lib.mfu_flist_copy flist st.DCOPY_user_opts.preserve 0
    { status := 0
      trace := st.trace ++ built.2 ++
        [Call.mfu_flist_copy flist st.DCOPY_user_opts.preserve 0 failed,
         Call.mfu_flist_free, Call.mfu_param_path_free_all numpaths,
         Call.mfu_free, Call.mfu_free, Call.mfu_finalize, Call.MPI_Finalize] }

/-- A call that creates, walks, reads, stats or copies a file list. -/
def Call.touchesFlist : Call → Bool
  | Call.mfu_flist_new => true
  | Call.mfu_param_path_walk _ _ _ => true
  | Call.mfu_flist_read_cache _ => true
  | Call.mfu_flist_stat _ => true
  | Call.mfu_flist_copy _ _ _ _ => true
  | Call.mfu_flist_free => true
  | _ => false

/-- The call is a call of `mfu_flist_copy`. -/
def Call.isCopy : Call → Bool
  | Call.mfu_flist_copy _ _ _ _ => true
  | _ => false

/-! ## Concrete inputs -/

/-- The source list of the skip-filter scenario: the single source `/data/foo`. -/
def params_data_foo : mfu_copy_params :=
  { src_params := [{ path := "/data/foo" }] }

/-- The last component of a path string, what `basename` leaves of it. -/
def last_component (s : String) : String :=
  String.mk ((mfu_path_from_str s).getLastD [])

/-- A host whose file system holds the directories `dirs` and the regular
files `files` and nothing else.  `realpath` resolves the names that exist to
themselves (the scenarios use canonical names) and fails with `NULL` on the
others; a byte address inside the pointer array names no file. -/
def host_of (dirs files : List String) : HostEnv :=
  { DCOPY_is_directory := fun p =>
      match p with
      | CharPtr.str s => dirs.contains s
      | _ => false
    DCOPY_is_regular_file := fun p =>
      match p with
      | CharPtr.str s => files.contains s
      | _ => false
    realpath := fun s => if dirs.contains s || files.contains s then CharPtr.str s else CharPtr.null
    strlen := fun p =>
      match p with
      | CharPtr.str s => s.utf8ByteSize
      | _ => 0
    basename := fun p =>
      match p with
      | CharPtr.str s => CharPtr.str (last_component s)
      | q => q
    strerror_errno := "No such file or directory"
    ARG_MAX := 4096
    malloc := 4096
    malloc_ok := by decide }

/-- The argument vector `dcp <args>`, read at any index. -/
def argv_of (args : List String) : Int → String :=
  fun i => ("dcp" :: args).getD i.toNat ""

/-- The options as `DCOPY_parse_src_paths` leaves them for the arguments
`args` (sources, then the destination) when the destination was parsed to
`dest` and the recursion flags are `recursive`, `recursive_unspecified`. -/
def parsed_opts (env : HostEnv) (args : List String) (dest : String)
    (recursive recursive_unspecified : Bool) : DCOPY_options_t :=
  match DCOPY_parse_src_paths env
      { DCOPY_user_opts with
        dest_path := CharPtr.str dest
        recursive := recursive
        recursive_unspecified := recursive_unspecified }
      (argv_of args) args.length 1 with
  | some out => out.opts
  | none => DCOPY_user_opts

/-- Scenario of C2: `/b` is an existing directory, `/a/file1` a regular file. -/
def host_dir_b : HostEnv := host_of ["/a", "/b"] ["/a/file1"]

/-- Scenario of C2: `dcp /a/file1 /b`. -/
def opts_file1_into_b : DCOPY_options_t :=
  parsed_opts host_dir_b ["/a/file1", "/b"] "/b" false false

/-- Scenario of C3: `/b` is an existing regular file, as are `/a/file1` and
`/a/file2`. -/
def host_file_b : HostEnv := host_of ["/a"] ["/a/file1", "/a/file2", "/b"]

/-- Scenario of C3: `dcp /a/file1 /a/file2 /b`. -/
def opts_two_files_onto_b : DCOPY_options_t :=
  parsed_opts host_file_b ["/a/file1", "/a/file2", "/b"] "/b" false false

/-- Scenario of C4 and C5: `/b` is a directory, `/b/new` does not exist,
`/a/file1` and `/a/file2` are regular files. -/
def host_new_dest : HostEnv := host_of ["/a", "/b"] ["/a/file1", "/a/file2"]

/-- Scenario of C4: `dcp -r /a/file1 /a/file2 /b/new`. -/
def opts_two_files_recursive : DCOPY_options_t :=
  parsed_opts host_new_dest ["/a/file1", "/a/file2", "/b/new"] "/b/new" true false

/-- Scenario of C5: `dcp /a/file1 /b/new`, recursion not set. -/
def opts_one_file_plain : DCOPY_options_t :=
  parsed_opts host_new_dest ["/a/file1", "/b/new"] "/b/new" false false

/-- A library for the scenarios of `main`: the path check answers `valid`,
the walk lists the source parameters it is given, the stat pass keeps the
entries the skip filter returns 0 for, and the copy reports `failed` failed
items. -/
def lib_of (valid : Bool) (failed : Nat) : MfuLib :=
  { mfu_param_path_set := fun s => { path := s }
    mfu_param_path_check_copy := fun _ _ _ => (valid, true)
    mfu_param_path_walk := fun num paths _ _ => (paths.take num.toNat).map fun q => q.path
    mfu_flist_read_cache := fun _ => []
    mfu_flist_stat := fun input skip => input.filter fun name => skip name = 0
    mfu_flist_copy := fun _ _ _ => failed
    mfu_path_cmp := mfu_path_cmp_str
    atoi := fun _ => 0 }

/-! ## Properties of the skip filter -/

/-- The loop of the skip filter returns 0 exactly when some remaining source
compares as equal or as containing the entry. -/
theorem DCOPY_input_flist_skip.loop_eq_zero_iff (cmp : String → String → mfu_path_result)
    (name : String) (srcs : List mfu_param_path) :
    DCOPY_input_flist_skip.loop cmp name srcs = 0 ↔
      ∃ src ∈ srcs, cmp name src.path = MFU_PATH_EQUAL ∨ cmp name src.path = MFU_PATH_SRC_CHILD := by
  induction srcs with
  | nil => simp [DCOPY_input_flist_skip.loop]
  | cons src rest ih =>
    by_cases h : cmp name src.path = MFU_PATH_SRC_CHILD ∨ cmp name src.path = MFU_PATH_EQUAL
    · have h2 : cmp name src.path = MFU_PATH_EQUAL ∨ cmp name src.path = MFU_PATH_SRC_CHILD :=
        h.symm
      simp [DCOPY_input_flist_skip.loop, h, h2]
    · have h2 : ¬ (cmp name src.path = MFU_PATH_EQUAL ∨ cmp name src.path = MFU_PATH_SRC_CHILD) :=
        fun h3 => h h3.symm
      simp only [DCOPY_input_flist_skip.loop, if_neg h, ih, List.exists_mem_cons_iff, h2, false_or]

/-- The loop of the skip filter returns 0 or 1. -/
theorem DCOPY_input_flist_skip.loop_zero_or_one (cmp : String → String → mfu_path_result)
    (name : String) (srcs : List mfu_param_path) :
    DCOPY_input_flist_skip.loop cmp name srcs = 0 ∨
      DCOPY_input_flist_skip.loop cmp name srcs = 1 := by
  induction srcs with
  | nil => simp [DCOPY_input_flist_skip.loop]
  | cons src rest ih =>
    by_cases h : cmp name src.path = MFU_PATH_SRC_CHILD ∨ cmp name src.path = MFU_PATH_EQUAL
    · left; simp [DCOPY_input_flist_skip.loop, h]
    · simpa only [DCOPY_input_flist_skip.loop, if_neg h] using ih

/-- C1: for every comparison routine, every source list and every entry path,
`DCOPY_input_flist_skip` returns 0 (copy) exactly when some source path
compares with the entry as `MFU_PATH_EQUAL` or `MFU_PATH_SRC_CHILD`, and 1
(skip) exactly when none does; with the component-wise comparison and the
single source `/data/foo`, the entry `/data/foo/x` is copied and the entry
`/data/foobar/x` is skipped. -/
theorem DCOPY_input_flist_skip_copies_iff_contained :
    (∀ (cmp : String → String → mfu_path_result) (params_ptr : mfu_copy_params)
        (name : String),
      (DCOPY_input_flist_skip cmp params_ptr name = 0 ↔
        ∃ src ∈ params_ptr.src_params,
          cmp name src.path = MFU_PATH_EQUAL ∨ cmp name src.path = MFU_PATH_SRC_CHILD) ∧
      (DCOPY_input_flist_skip cmp params_ptr name = 1 ↔
        ¬ ∃ src ∈ params_ptr.src_params,
          cmp name src.path = MFU_PATH_EQUAL ∨ cmp name src.path = MFU_PATH_SRC_CHILD)) ∧
    DCOPY_input_flist_skip mfu_path_cmp_str params_data_foo "/data/foo/x" = 0 ∧
    DCOPY_input_flist_skip mfu_path_cmp_str params_data_foo "/data/foobar/x" = 1 := by
  refine ⟨fun cmp params_ptr name => ?_, by decide, by decide⟩
  have h0 := DCOPY_input_flist_skip.loop_eq_zero_iff cmp name params_ptr.src_params
  have h01 := DCOPY_input_flist_skip.loop_zero_or_one cmp name params_ptr.src_params
  unfold DCOPY_input_flist_skip
  refine ⟨h0, ?_⟩
  rw [← h0]
  constructor
  · intro h1 h2
    rw [h1] at h2
    exact absurd h2 (by decide)
  · intro h
    exact h01.resolve_left h

/-! ## Properties of the classifier of `handle_args.c` -/

/-- The counting loop ends after as many turns as there are addresses from
the cursor to the end of the 64-bit address space, and has then added that
number to the counter, modulo `2^32`. -/
theorem DCOPY_source_file_count.loop_closed_form (fuel : Nat) :
    ∀ src_path count : Nat, src_path < 2 ^ 64 → count < 2 ^ 32 →
      DCOPY_source_file_count.loop fuel src_path count =
        if (2 ^ 64 - src_path) % 2 ^ 64 + 1 ≤ fuel then
          some ((count + (2 ^ 64 - src_path) % 2 ^ 64) % 2 ^ 32)
        else none := by
  induction fuel with
  | zero => intro _ _ _ _; simp [DCOPY_source_file_count.loop]
  | succ n ih =>
    intro src_path count hs hc
    by_cases h0 : src_path = 0
    · subst h0
      have hcm : count % 4294967296 = count := Nat.mod_eq_of_lt (by omega)
      simp [DCOPY_source_file_count.loop, hcm]
    · have hstep := ih ((src_path + 1) % 2 ^ 64) ((count + 1) % 2 ^ 32)
        (Nat.mod_lt _ (by norm_num)) (Nat.mod_lt _ (by norm_num))
      simp only [DCOPY_source_file_count.loop, ne_eq, h0, not_false_eq_true, if_true, hstep]
      have hd : (2 ^ 64 - (src_path + 1) % 2 ^ 64) % 2 ^ 64 + 1 =
          (2 ^ 64 - src_path) % 2 ^ 64 := by omega
      have hsum : ((count + 1) % 2 ^ 32 + (2 ^ 64 - (src_path + 1) % 2 ^ 64) % 2 ^ 64) % 2 ^ 32 =
          (count + (2 ^ 64 - src_path) % 2 ^ 64) % 2 ^ 32 := by omega
      rw [hsum]
      by_cases hf : (2 ^ 64 - src_path) % 2 ^ 64 + 1 ≤ n + 1
      · have hf2 : (2 ^ 64 - (src_path + 1) % 2 ^ 64) % 2 ^ 64 + 1 ≤ n := by omega
        rw [if_pos hf, if_pos hf2]
      · have hf2 : ¬ (2 ^ 64 - (src_path + 1) % 2 ^ 64) % 2 ^ 64 + 1 ≤ n := by omega
        rw [if_neg hf, if_neg hf2]

/-- From a block at an even address below `2^64` the count is never 1. -/
theorem DCOPY_source_file_count.never_one (opts : DCOPY_options_t) (fuel : Nat)
    (hs : opts.src_path.addr < 2 ^ 64) (heven : opts.src_path.addr % 2 = 0) :
    DCOPY_source_file_count opts fuel ≠ some 1 := by
  unfold DCOPY_source_file_count
  rw [DCOPY_source_file_count.loop_closed_form fuel _ _ hs (by norm_num)]
  split_ifs
  · intro h
    have h1 := Option.some.inj h
    omega
  · exact fun h => Option.noConfusion h

/-- The scan of `DCOPY_dest_is_dir` does not end from a non-null block address. -/
theorem DCOPY_dest_is_dir.scan_loop_runs_on (env : HostEnv) (fuel : Nat) :
    ∀ (src_path : Nat) (flag : Bool), src_path ≠ 0 →
      DCOPY_dest_is_dir.loop env fuel src_path flag = none := by
  induction fuel with
  | zero => intro _ _ _; rfl
  | succ n ih =>
    intro src_path flag h
    simp only [DCOPY_dest_is_dir.loop, if_pos h]
    exact ih _ _ (Nat.succ_ne_zero _)

/-- The parsed options of the four scenarios, written out. -/
theorem parsed_opts_scenarios :
    opts_file1_into_b =
      { DCOPY_user_opts with
        dest_path := CharPtr.str "/b"
        src_path := { addr := 4096, elems := [CharPtr.str "/a/file1"] } } ∧
    opts_two_files_onto_b =
      { DCOPY_user_opts with
        dest_path := CharPtr.str "/b"
        src_path := { addr := 4096, elems := [CharPtr.str "/a/file1", CharPtr.str "/a/file2"] } } ∧
    opts_two_files_recursive =
      { DCOPY_user_opts with
        dest_path := CharPtr.str "/b/new"
        recursive := true
        src_path := { addr := 4096, elems := [CharPtr.str "/a/file1", CharPtr.str "/a/file2"] } } ∧
    opts_one_file_plain =
      { DCOPY_user_opts with
        dest_path := CharPtr.str "/b/new"
        src_path := { addr := 4096, elems := [CharPtr.str "/a/file1"] } } := by
  refine ⟨?_, ?_, ?_, ?_⟩ <;> decide

/-- An existing directory as destination makes `DCOPY_dest_is_dir` return
false (handle_args.c:105-106). -/
theorem DCOPY_dest_is_dir.of_directory (env : HostEnv) (opts : DCOPY_options_t) (fuel : Nat)
    (h : env.DCOPY_is_directory opts.dest_path = true) :
    DCOPY_dest_is_dir env opts fuel = some false := by
  simp only [DCOPY_dest_is_dir, h, if_true]

/-- An existing regular file as destination makes `DCOPY_dest_is_dir` return
true (handle_args.c:108-109). -/
theorem DCOPY_dest_is_dir.of_regular_file (env : HostEnv) (opts : DCOPY_options_t) (fuel : Nat)
    (h1 : env.DCOPY_is_directory opts.dest_path = false)
    (h2 : env.DCOPY_is_regular_file opts.dest_path = true) :
    DCOPY_dest_is_dir env opts fuel = some true := by
  simp [DCOPY_dest_is_dir, h1, h2]

/-- A missing destination with a recursion flag set and an allocated source
array: the scan of `DCOPY_dest_is_dir` does not end. -/
theorem DCOPY_dest_is_dir.of_missing_recursive (env : HostEnv) (opts : DCOPY_options_t)
    (fuel : Nat)
    (h1 : env.DCOPY_is_directory opts.dest_path = false)
    (h2 : env.DCOPY_is_regular_file opts.dest_path = false)
    (h3 : (opts.recursive || opts.recursive_unspecified) = true)
    (h4 : opts.src_path.addr ≠ 0) :
    DCOPY_dest_is_dir env opts fuel = none := by
  simp only [DCOPY_dest_is_dir, h1, h2, h3, if_true, Bool.false_eq_true, if_false]
  exact DCOPY_dest_is_dir.scan_loop_runs_on env fuel _ _ h4

/-- A missing destination with both recursion flags unset makes
`DCOPY_dest_is_dir` return false (handle_args.c:132-138). -/
theorem DCOPY_dest_is_dir.of_missing_plain (env : HostEnv) (opts : DCOPY_options_t) (fuel : Nat)
    (h1 : env.DCOPY_is_directory opts.dest_path = false)
    (h2 : env.DCOPY_is_regular_file opts.dest_path = false)
    (h3 : opts.recursive = false) (h4 : opts.recursive_unspecified = false) :
    DCOPY_dest_is_dir env opts fuel = some false := by
  simp [DCOPY_dest_is_dir, h1, h2, h3, h4]

/-- C2: whenever the destination is an existing directory `DCOPY_dest_is_dir`
returns false, not true.  At `dcp /a/file1 /b` with `/b` an existing directory
the body of `DCOPY_enqueue_work_objects` then runs the destination-is-a-file
branch for every source count: a count of one is taken as a single-file
overwrite with `dest_base_index` the length of the base name `b` (1, not the
length 2 of `/b`), any other count as the impossible condition. -/
theorem DCOPY_dest_is_dir_false_on_existing_directory :
    (∀ (env : HostEnv) (opts : DCOPY_options_t) (fuel : Nat),
      env.DCOPY_is_directory opts.dest_path = true →
        DCOPY_dest_is_dir env opts fuel = some false) ∧
    host_dir_b.DCOPY_is_directory opts_file1_into_b.dest_path = true ∧
    (∀ fuel : Nat, DCOPY_dest_is_dir host_dir_b opts_file1_into_b fuel = some false) ∧
    (∀ n fuel : Nat,
      DCOPY_enqueue_work_objects.body host_dir_b opts_file1_into_b false n fuel =
        some (if n = 1 then
          { opts := { opts_file1_into_b with dest_base_index := 1 }
            log := [⟨DCOPY_LOG_DBG, "Enqueueing only source path `%s'.",
                     [CharPtr.str "/a/file1"]⟩]
            exit := none }
        else
          { opts := opts_file1_into_b
            log := [⟨DCOPY_LOG_ERR, "Error: Impossible condition catch-all.", []⟩]
            exit := none })) := by
  refine ⟨DCOPY_dest_is_dir.of_directory, by decide, fun fuel => ?_, fun n fuel => ?_⟩
  · exact DCOPY_dest_is_dir.of_directory _ _ _ (by decide)
  · have h1 : host_dir_b.DCOPY_is_regular_file (CharPtr.str "/a/file1") = true := by
      decide
    have h2 : host_dir_b.strlen (host_dir_b.basename opts_file1_into_b.dest_path) = 1 := by
      decide
    have h3 : opts_file1_into_b.src_path.read 0 = CharPtr.str "/a/file1" := by decide
    by_cases hn : n = 1
    · simp [DCOPY_enqueue_work_objects.body, h1, h2, h3, hn]
    · simp [DCOPY_enqueue_work_objects.body, hn]

/-- C3: whenever the destination is an existing regular file
`DCOPY_dest_is_dir` returns true.  At `dcp /a/file1 /a/file2 /b` with `/b` an
existing regular file the body of `DCOPY_enqueue_work_objects` then runs the
destination-is-a-directory branch (base index = length of `/b`, then the
enqueue loop) for every source count; the impossible-condition error of the
file branch is not reached. -/
theorem DCOPY_dest_is_dir_true_on_existing_file :
    (∀ (env : HostEnv) (opts : DCOPY_options_t) (fuel : Nat),
      env.DCOPY_is_directory opts.dest_path = false →
      env.DCOPY_is_regular_file opts.dest_path = true →
        DCOPY_dest_is_dir env opts fuel = some true) ∧
    host_file_b.DCOPY_is_regular_file opts_two_files_onto_b.dest_path = true ∧
    host_file_b.DCOPY_is_directory opts_two_files_onto_b.dest_path = false ∧
    (∀ fuel : Nat, DCOPY_dest_is_dir host_file_b opts_two_files_onto_b fuel = some true) ∧
    (∀ n fuel : Nat,
      DCOPY_enqueue_work_objects.body host_file_b opts_two_files_onto_b true n fuel =
        (DCOPY_enqueue_work_objects.loop fuel 4096 []).map fun log =>
          { opts := { opts_two_files_onto_b with dest_base_index := 2 }
            log := log
            exit := none }) := by
  refine ⟨DCOPY_dest_is_dir.of_regular_file, by decide, by decide, fun fuel => ?_,
    fun n fuel => ?_⟩
  · exact DCOPY_dest_is_dir.of_regular_file _ _ _ (by decide) (by decide)
  · have h1 : opts_two_files_onto_b.src_path.addr = 4096 := by decide
    have h2 : host_file_b.strlen opts_two_files_onto_b.dest_path = 2 := by decide
    simp only [DCOPY_enqueue_work_objects.body, h1, h2]
    cases DCOPY_enqueue_work_objects.loop fuel 4096 [] <;> simp

/-- C4: whenever the destination is missing, a recursion flag is set and the
source array is allocated, `DCOPY_dest_is_dir` yields no result for any fuel:
its scan starts at the (non-null) address of the source array and never meets
the `NULL` it waits for.  So it is at `dcp -r /a/file1 /a/file2 /b/new` with
`/b/new` missing and both sources regular files, where it does not return
true. -/
theorem DCOPY_dest_is_dir_recursive_scan_runs_on :
    (∀ (env : HostEnv) (opts : DCOPY_options_t) (fuel : Nat),
      env.DCOPY_is_directory opts.dest_path = false →
      env.DCOPY_is_regular_file opts.dest_path = false →
      (opts.recursive || opts.recursive_unspecified) = true →
      opts.src_path.addr ≠ 0 →
        DCOPY_dest_is_dir env opts fuel = none) ∧
    host_new_dest.DCOPY_is_directory opts_two_files_recursive.dest_path = false ∧
    host_new_dest.DCOPY_is_regular_file opts_two_files_recursive.dest_path = false ∧
    opts_two_files_recursive.recursive = true ∧
    (∀ fuel : Nat, DCOPY_dest_is_dir host_new_dest opts_two_files_recursive fuel = none) := by
  refine ⟨DCOPY_dest_is_dir.of_missing_recursive, by decide, by decide, by decide,
    fun fuel => ?_⟩
  exact DCOPY_dest_is_dir.of_missing_recursive _ _ _ (by decide) (by decide) (by decide)
    (by decide)

/-- C5: `DCOPY_source_file_count` does not count the sources: from a block at
an even address it never returns 1, and from an allocated block it returns the
number of addresses up to the end of the address space, modulo `2^32`; for
every count other than 1 the file branch of `DCOPY_enqueue_work_objects`
reports the impossible condition.  So at `dcp /a/file1 /b/new` with `/b/new`
missing, recursion not set and `/a/file1` a regular file, where
`DCOPY_dest_is_dir` returns false and a count of one would be accepted, the
count is 4294963200 and `DCOPY_enqueue_work_objects` reports the impossible
condition instead of accepting the copy. -/
theorem DCOPY_enqueue_work_objects_rejects_single_regular_file :
    (∀ (opts : DCOPY_options_t) (fuel : Nat),
      opts.src_path.addr < 2 ^ 64 → opts.src_path.addr % 2 = 0 →
        DCOPY_source_file_count opts fuel ≠ some 1) ∧
    (∀ (opts : DCOPY_options_t) (fuel : Nat),
      0 < opts.src_path.addr → opts.src_path.addr < 2 ^ 64 →
      2 ^ 64 - opts.src_path.addr + 1 ≤ fuel →
        DCOPY_source_file_count opts fuel = some ((2 ^ 64 - opts.src_path.addr) % 2 ^ 32)) ∧
    (∀ (env : HostEnv) (opts : DCOPY_options_t) (n fuel : Nat), n ≠ 1 →
      DCOPY_enqueue_work_objects.body env opts false n fuel =
        some { opts := opts
               log := [⟨DCOPY_LOG_ERR, "Error: Impossible condition catch-all.", []⟩]
               exit := none }) ∧
    (∀ fuel : Nat, DCOPY_dest_is_dir host_new_dest opts_one_file_plain fuel = some false) ∧
    (∀ fuel : Nat,
      DCOPY_enqueue_work_objects.body host_new_dest opts_one_file_plain false 1 fuel =
        some { opts := { opts_one_file_plain with dest_base_index := 3 }
               log := [⟨DCOPY_LOG_DBG, "Enqueueing only source path `%s'.",
                        [CharPtr.str "/a/file1"]⟩]
               exit := none }) ∧
    (∀ fuel : Nat, 2 ^ 64 ≤ fuel →
      DCOPY_source_file_count opts_one_file_plain fuel = some 4294963200) ∧
    (∀ fuel : Nat, 2 ^ 64 ≤ fuel →
      DCOPY_enqueue_work_objects host_new_dest opts_one_file_plain fuel =
        some { opts := opts_one_file_plain
               log := [⟨DCOPY_LOG_ERR, "Error: Impossible condition catch-all.", []⟩]
               exit := none }) := by
  have hcount : ∀ (opts : DCOPY_options_t) (fuel : Nat),
      0 < opts.src_path.addr → opts.src_path.addr < 2 ^ 64 →
      2 ^ 64 - opts.src_path.addr + 1 ≤ fuel →
        DCOPY_source_file_count opts fuel = some ((2 ^ 64 - opts.src_path.addr) % 2 ^ 32) := by
    intro opts fuel h0 hs hf
    unfold DCOPY_source_file_count
    rw [DCOPY_source_file_count.loop_closed_form fuel _ _ hs (by norm_num)]
    have hd : (2 ^ 64 - opts.src_path.addr) % 2 ^ 64 = 2 ^ 64 - opts.src_path.addr := by omega
    rw [hd, if_pos hf, Nat.zero_add]
  have hbody : ∀ (env : HostEnv) (opts : DCOPY_options_t) (n fuel : Nat), n ≠ 1 →
      DCOPY_enqueue_work_objects.body env opts false n fuel =
        some { opts := opts
               log := [⟨DCOPY_LOG_ERR, "Error: Impossible condition catch-all.", []⟩]
               exit := none } := by
    intro env opts n fuel hn
    simp [DCOPY_enqueue_work_objects.body, hn]
  have hd : ∀ fuel : Nat,
      DCOPY_dest_is_dir host_new_dest opts_one_file_plain fuel = some false := fun fuel =>
    DCOPY_dest_is_dir.of_missing_plain _ _ _ (by decide) (by decide) (by decide) (by decide)
  have haddr : opts_one_file_plain.src_path.addr = 4096 := by decide
  have hc : ∀ fuel : Nat, 2 ^ 64 ≤ fuel →
      DCOPY_source_file_count opts_one_file_plain fuel = some 4294963200 := by
    intro fuel hf
    rw [hcount opts_one_file_plain fuel (by rw [haddr]; norm_num) (by rw [haddr]; norm_num)
      (by rw [haddr]; omega), haddr]
    norm_num
  refine ⟨fun opts fuel hs he => DCOPY_source_file_count.never_one opts fuel hs he, hcount,
    hbody, hd, fun fuel => ?_, hc, fun fuel hf => ?_⟩
  · have h1 : host_new_dest.DCOPY_is_regular_file (CharPtr.str "/a/file1") = true := by
      decide
    have h2 : host_new_dest.strlen (host_new_dest.basename opts_one_file_plain.dest_path) = 3 := by
      decide
    have h3 : opts_one_file_plain.src_path.read 0 = CharPtr.str "/a/file1" := by decide
    simp [DCOPY_enqueue_work_objects.body, h1, h2, h3]
  · simp only [DCOPY_enqueue_work_objects, hd fuel, hc fuel hf]
    exact hbody _ _ _ _ (by norm_num)

/-! ## Properties of `DCOPY_parse_src_paths` -/

/-- A guarded call changes the trace only. -/
theorem MainState.rank0_fields (st : MainState) (rank : Int) (c : Call) :
    (st.rank0 rank c).usage = st.usage ∧ (st.rank0 rank c).inputname = st.inputname ∧
    (st.rank0 rank c).DCOPY_user_opts = st.DCOPY_user_opts ∧
    (st.rank0 rank c).walk = st.walk := by
  unfold MainState.rank0
  split_ifs <;> exact ⟨rfl, rfl, rfl, rfl⟩

/-- A guarded call that is no file-list call keeps the trace free of them. -/
theorem MainState.rank0_trace (st : MainState) (rank : Int) (c : Call)
    (hc : c.touchesFlist = false) (h : ∀ x ∈ st.trace, x.touchesFlist = false) :
    ∀ x ∈ (st.rank0 rank c).trace, x.touchesFlist = false := by
  unfold MainState.rank0
  split_ifs
  · intro x hx
    rcases List.mem_append.mp hx with hx | hx
    · exact h x hx
    · rw [List.mem_singleton.mp hx]; exact hc
  · exact h

/-- The case `d` changes the debug levels and the trace only. -/
theorem main.option_d_fields (rank : Int) (st : MainState) (optarg : String) :
    (main.option_d rank st optarg).usage = st.usage ∧
    (main.option_d rank st optarg).inputname = st.inputname ∧
    (main.option_d rank st optarg).DCOPY_user_opts = st.DCOPY_user_opts := by
  unfold main.option_d MainState.log0
  split_ifs <;>
    exact ⟨(MainState.rank0_fields _ _ _).1, (MainState.rank0_fields _ _ _).2.1,
      (MainState.rank0_fields _ _ _).2.2.1⟩

/-- The case `d` adds no file-list call to the trace. -/
theorem main.option_d_trace (rank : Int) (st : MainState) (optarg : String)
    (h : ∀ x ∈ st.trace, x.touchesFlist = false) :
    ∀ x ∈ (main.option_d rank st optarg).trace, x.touchesFlist = false := by
  unfold main.option_d MainState.log0
  split_ifs <;> exact MainState.rank0_trace _ _ _ rfl h

/-- One option leaves `usage` set exactly when it is `h` or `?`, or when it
was set before. -/
theorem main.option_usage (lib : MfuLib) (LUSTRE_SUPPORT : Bool) (rank : Int) (st : MainState)
    (o : GetoptResult) :
    (main.option lib LUSTRE_SUPPORT rank st o).usage =
      if o.c = 'h' ∨ o.c = '?' then 1 else st.usage := by
  unfold main.option MainState.log0
  split_ifs <;>
    simp_all [(MainState.rank0_fields _ _ _).1, (main.option_d_fields _ _ _).1]

/-- One option sets `inputname` exactly when it is `i`. -/
theorem main.option_inputname (lib : MfuLib) (LUSTRE_SUPPORT : Bool) (rank : Int)
    (st : MainState) (o : GetoptResult) :
    (main.option lib LUSTRE_SUPPORT rank st o).inputname =
      if o.c = 'i' then some o.optarg else st.inputname := by
  unfold main.option MainState.log0
  split_ifs <;>
    simp_all [(MainState.rank0_fields _ _ _).2.1, (main.option_d_fields _ _ _).2.1]

/-- No option assigns `DCOPY_user_opts.preserve`. -/
theorem main.option_preserve (lib : MfuLib) (LUSTRE_SUPPORT : Bool) (rank : Int)
    (st : MainState) (o : GetoptResult) :
    (main.option lib LUSTRE_SUPPORT rank st o).DCOPY_user_opts.preserve =
      st.DCOPY_user_opts.preserve := by
  unfold main.option MainState.log0
  split_ifs <;>
    simp [(MainState.rank0_fields _ _ _).2.2.1, (main.option_d_fields _ _ _).2.2]

/-- One option adds no file-list call to the trace. -/
theorem main.option_trace (lib : MfuLib) (LUSTRE_SUPPORT : Bool) (rank : Int)
    (st : MainState) (o : GetoptResult)
    (h : ∀ c ∈ st.trace, c.touchesFlist = false) :
    ∀ c ∈ (main.option lib LUSTRE_SUPPORT rank st o).trace, c.touchesFlist = false := by
  unfold main.option MainState.log0
  split_ifs
  · exact main.option_d_trace _ _ _ h
  · exact MainState.rank0_trace _ _ _ rfl h
  · exact MainState.rank0_trace _ _ _ rfl h
  · exact MainState.rank0_trace _ _ _ rfl h
  · exact MainState.rank0_trace _ _ _ rfl h
  · exact MainState.rank0_trace _ _ _ rfl h
  · exact h
  · exact h
  · exact h
  · exact MainState.rank0_trace _ _ _ rfl h

/-- After the option loop `usage` is set exactly when it was set before or
some option was `h` or `?`. -/
theorem main.options_usage (lib : MfuLib) (LUSTRE_SUPPORT : Bool) (rank : Int)
    (opts : List GetoptResult) :
    ∀ st : MainState, (main.options lib LUSTRE_SUPPORT rank st opts).usage ≠ 0 ↔
      (st.usage ≠ 0 ∨ ∃ o ∈ opts, o.c = 'h' ∨ o.c = '?') := by
  induction opts with
  | nil => intro st; simp [main.options]
  | cons o rest ih =>
    intro st
    have hstep := ih (main.option lib LUSTRE_SUPPORT rank st o)
    simp only [main.options, List.foldl_cons] at hstep ⊢
    rw [hstep, main.option_usage]
    by_cases hc : o.c = 'h' ∨ o.c = '?'
    · simp [hc]
    · simp [hc]

/-- After the option loop `inputname` is set exactly when it was set before
or some option was `i`. -/
theorem main.options_inputname (lib : MfuLib) (LUSTRE_SUPPORT : Bool) (rank : Int)
    (opts : List GetoptResult) :
    ∀ st : MainState, (main.options lib LUSTRE_SUPPORT rank st opts).inputname ≠ none ↔
      (st.inputname ≠ none ∨ ∃ o ∈ opts, o.c = 'i') := by
  induction opts with
  | nil => intro st; simp [main.options]
  | cons o rest ih =>
    intro st
    have hstep := ih (main.option lib LUSTRE_SUPPORT rank st o)
    simp only [main.options, List.foldl_cons] at hstep ⊢
    rw [hstep, main.option_inputname]
    by_cases hc : o.c = 'i'
    · simp [hc]
    · simp [hc]

/-- The option loop does not assign `DCOPY_user_opts.preserve`. -/
theorem main.options_preserve (lib : MfuLib) (LUSTRE_SUPPORT : Bool) (rank : Int)
    (opts : List GetoptResult) :
    ∀ st : MainState, (main.options lib LUSTRE_SUPPORT rank st opts).DCOPY_user_opts.preserve =
      st.DCOPY_user_opts.preserve := by
  induction opts with
  | nil => intro st; rfl
  | cons o rest ih =>
    intro st
    have hstep := ih (main.option lib LUSTRE_SUPPORT rank st o)
    simp only [main.options, List.foldl_cons] at hstep ⊢
    rw [hstep, main.option_preserve]

/-- The option loop adds no file-list call to the trace. -/
theorem main.options_trace (lib : MfuLib) (LUSTRE_SUPPORT : Bool) (rank : Int)
    (opts : List GetoptResult) :
    ∀ st : MainState, (∀ c ∈ st.trace, c.touchesFlist = false) →
      ∀ c ∈ (main.options lib LUSTRE_SUPPORT rank st opts).trace, c.touchesFlist = false := by
  induction opts with
  | nil => intro st h; exact h
  | cons o rest ih =>
    intro st h
    have hstep := ih (main.option lib LUSTRE_SUPPORT rank st o)
      (main.option_trace lib LUSTRE_SUPPORT rank st o h)
    simpa only [main.options, List.foldl_cons] using hstep

/-- The trace at the start of the option loop holds no file-list call. -/
theorem main.init_trace : ∀ c ∈ main.init.trace, c.touchesFlist = false := by
  decide

/-- After the path arguments `usage` is set exactly on a usage error of the
command line: `h` or an unknown option, an input file together with path
arguments, or neither of the two. -/
theorem main.arguments_usage (lib : MfuLib) (LUSTRE_SUPPORT : Bool) (rank : Int)
    (opts : List GetoptResult) (argpaths : List String) :
    (main.arguments lib LUSTRE_SUPPORT rank opts argpaths).usage ≠ 0 ↔
      ((∃ o ∈ opts, o.c = 'h' ∨ o.c = '?') ∨
       ((∃ o ∈ opts, o.c = 'i') ∧ argpaths ≠ []) ∨
       ((∀ o ∈ opts, o.c ≠ 'i') ∧ argpaths = [])) := by
  have husage := main.options_usage lib LUSTRE_SUPPORT rank opts main.init
  have hinput := main.options_inputname lib LUSTRE_SUPPORT rank opts main.init
  have h0 : main.init.usage = 0 := rfl
  have h1 : main.init.inputname = none := rfl
  simp only [h0, h1, ne_eq, not_true_eq_false, false_or] at husage hinput
  unfold main.arguments
  by_cases hp : argpaths ≠ []
  · by_cases hi : (main.options lib LUSTRE_SUPPORT rank main.init opts).inputname ≠ none
    · have hi2 := hinput.mp hi
      simp [hp, hi, hi2]
    · have hi2 : ¬ ∃ o ∈ opts, o.c = 'i' := fun h => hi (hinput.mpr h)
      simp only [if_pos hp, if_neg hi, husage]
      simp [hp, hi2]
  · have hp2 : argpaths = [] := not_not.mp hp
    by_cases hi : (main.options lib LUSTRE_SUPPORT rank main.init opts).inputname = none
    · have hi2 : ∀ o ∈ opts, o.c ≠ 'i' := fun o ho hc => (hinput.mpr ⟨o, ho, hc⟩) hi
      simp only [if_neg hp, if_pos hi]
      simp only [hp2, ne_eq, not_true_eq_false, and_false, and_true, false_or]
      exact ⟨fun _ => Or.inr hi2, fun _ => by decide⟩
    · have hi2 := hinput.mp hi
      have hi3 : ¬ ∀ o ∈ opts, o.c ≠ 'i' := by
        obtain ⟨o, ho, hc⟩ := hi2
        exact fun h => h o ho hc
      simp only [if_neg hp, if_neg hi, husage]
      simp [hp2, hi3]

/-- The state after the path arguments has made no file-list call. -/
theorem main.arguments_trace (lib : MfuLib) (LUSTRE_SUPPORT : Bool) (rank : Int)
    (opts : List GetoptResult) (argpaths : List String) :
    ∀ c ∈ (main.arguments lib LUSTRE_SUPPORT rank opts argpaths).trace,
      c.touchesFlist = false := by
  have htrace := main.options_trace lib LUSTRE_SUPPORT rank opts main.init main.init_trace
  unfold main.arguments
  split_ifs
  · intro c hc
    rcases List.mem_append.mp hc with hc | hc
    · exact htrace c hc
    · rw [List.mem_singleton.mp hc]; rfl
  · exact htrace

/-- The state after the path arguments has `DCOPY_user_opts.preserve` unset. -/
theorem main.arguments_preserve (lib : MfuLib) (LUSTRE_SUPPORT : Bool) (rank : Int)
    (opts : List GetoptResult) (argpaths : List String) :
    (main.arguments lib LUSTRE_SUPPORT rank opts argpaths).DCOPY_user_opts.preserve = false := by
  have h := main.options_preserve lib LUSTRE_SUPPORT rank opts main.init
  unfold main.arguments
  split_ifs <;> exact h

/-- A copy call is a file-list call. -/
theorem Call.touchesFlist_of_isCopy (c : Call) (h : c.isCopy = true) : c.touchesFlist = true := by
  cases c <;> simp_all [Call.isCopy, Call.touchesFlist]

/-- The two early exits of `main`: a guarded message, then the two finalisers,
after a trace without file-list calls. -/
theorem main.exit_trace (st : MainState) (rank : Int) (c0 c1 : Call)
    (h0 : c0.touchesFlist = false) (h1 : c1.touchesFlist = false)
    (h : ∀ c ∈ st.trace, c.touchesFlist = false) :
    ∀ c ∈ (MainState.rank0 { st with trace := st.trace ++ [c0] } rank c1).trace ++
        [Call.mfu_finalize, Call.MPI_Finalize], c.touchesFlist = false := by
  have hst : ∀ c ∈ st.trace ++ [c0], c.touchesFlist = false := by
    intro c hc
    rcases List.mem_append.mp hc with hc | hc
    · exact h c hc
    · rw [List.mem_singleton.mp hc]; exact h0
  have hr := MainState.rank0_trace { st with trace := st.trace ++ [c0] } rank c1 h1 hst
  intro c hc
  rcases List.mem_append.mp hc with hc | hc
  · exact hr c hc
  · simp only [List.mem_cons, List.mem_singleton, List.not_mem_nil, or_false] at hc
    rcases hc with hc | hc <;> rw [hc] <;> rfl

/-- A run whose path check fails, or whose command line is a usage error,
returns 1 after a trace without file-list calls. -/
theorem main.early_exit (lib : MfuLib) (LUSTRE_SUPPORT : Bool) (rank : Int)
    (params_ptr : mfu_copy_params) (opts : List GetoptResult) (argpaths : List String)
    (h : main.valid lib argpaths = false ∨
      (main.arguments lib LUSTRE_SUPPORT rank opts argpaths).usage ≠ 0) :
    (main lib LUSTRE_SUPPORT rank params_ptr opts argpaths).status = 1 ∧
    ∀ c ∈ (main lib LUSTRE_SUPPORT rank params_ptr opts argpaths).trace,
      c.touchesFlist = false := by
  have ht := main.arguments_trace lib LUSTRE_SUPPORT rank opts argpaths
  by_cases hv : main.valid lib argpaths = true
  · have hu : (main.arguments lib LUSTRE_SUPPORT rank opts argpaths).usage ≠ 0 := by
      rcases h with h | h
      · rw [hv] at h; exact absurd h (by decide)
      · exact h
    simp only [main, hv, Bool.not_true, Bool.false_eq_true, if_false, if_pos hu, true_and]
    exact main.exit_trace _ rank _ _ rfl rfl ht
  · have hv2 : main.valid lib argpaths = false := by simpa using hv
    simp only [main, hv2, Bool.not_false, if_true, true_and]
    exact main.exit_trace _ rank _ _ rfl rfl ht

/-- A run whose path check succeeds on a command line without usage error
returns 0 after building the file list and passing it to `mfu_flist_copy`
with the flag `DCOPY_user_opts.preserve`, which is false. -/
theorem main.copy_run (lib : MfuLib) (LUSTRE_SUPPORT : Bool) (rank : Int)
    (params_ptr : mfu_copy_params) (opts : List GetoptResult) (argpaths : List String)
    (hv : main.valid lib argpaths = true)
    (hu : (main.arguments lib LUSTRE_SUPPORT rank opts argpaths).usage = 0) :
    ∃ (pre post : List Call) (flist : mfu_flist),
      (∀ c ∈ pre, c.isCopy = false) ∧ (∀ c ∈ post, c.isCopy = false) ∧
      main lib LUSTRE_SUPPORT rank params_ptr opts argpaths =
        { status := 0
          trace := pre ++
            [Call.mfu_flist_copy flist false 0 (lib.mfu_flist_copy flist false 0)] ++ post } := by
  have ht := main.arguments_trace lib LUSTRE_SUPPORT rank opts argpaths
  have hp := main.arguments_preserve lib LUSTRE_SUPPORT rank opts argpaths
  have hnc : ∀ c : Call, c.touchesFlist = false → c.isCopy = false := by
    intro c hc
    cases hcopy : c.isCopy
    · rfl
    · rw [Call.touchesFlist_of_isCopy c hcopy] at hc; exact absurd hc (by decide)
  have hb : ∀ x ∈ (main.flist lib params_ptr
      (main.arguments lib LUSTRE_SUPPORT rank opts argpaths).walk
      (main.arguments lib LUSTRE_SUPPORT rank opts argpaths).inputname
      (main.numpaths argpaths - 1) (main.paths lib argpaths)).2, x.isCopy = false := by
    unfold main.flist
    split_ifs <;> simp [Call.isCopy]
  refine ⟨((main.arguments lib LUSTRE_SUPPORT rank opts argpaths).trace ++
        [Call.mfu_param_path_check_copy (main.numpaths argpaths - 1)
          (main.destpath lib argpaths)]) ++
      (main.flist lib params_ptr
        (main.arguments lib LUSTRE_SUPPORT rank opts argpaths).walk
        (main.arguments lib LUSTRE_SUPPORT rank opts argpaths).inputname
        (main.numpaths argpaths - 1) (main.paths lib argpaths)).2,
    [Call.mfu_flist_free, Call.mfu_param_path_free_all (main.numpaths argpaths),
      Call.mfu_free, Call.mfu_free, Call.mfu_finalize, Call.MPI_Finalize],
    (main.flist lib params_ptr
        (main.arguments lib LUSTRE_SUPPORT rank opts argpaths).walk
        (main.arguments lib LUSTRE_SUPPORT rank opts argpaths).inputname
        (main.numpaths argpaths - 1) (main.paths lib argpaths)).1, ?_, ?_, ?_⟩
  · intro c hc
    rcases List.mem_append.mp hc with hc | hc
    · rcases List.mem_append.mp hc with hc | hc
      · exact hnc c (ht c hc)
      · rw [List.mem_singleton.mp hc]; rfl
    · exact hb c hc
  · intro c hc
    simp only [List.mem_cons, List.mem_singleton, List.not_mem_nil, or_false] at hc
    rcases hc with hc | hc | hc | hc | hc | hc <;> rw [hc] <;> rfl
  · simp only [main, hv, Bool.not_true, Bool.false_eq_true, if_false, hu, ne_eq,
      not_true_eq_false, hp]
    simp

/-- C7, the claim fails: `dcp /a/file1 /b` passes the path check and reaches
the copy phase, `mfu_flist_copy` reports one failed item, and `main` still
returns 0. -/
theorem main_returns_0_with_failed_item :
    Call.mfu_flist_copy ["/a/file1"] false 0 1 ∈
      (main (lib_of true 1) false 0 params_data_foo [] ["/a/file1", "/b"]).trace ∧
    (lib_of true 1).mfu_flist_copy ["/a/file1"] false 0 = 1 ∧
    (main (lib_of true 1) false 0 params_data_foo [] ["/a/file1", "/b"]).status = 0 := by
  decide

/-- C7 as amended: every run of `main` that reaches the copy phase (its trace
holds a call of `mfu_flist_copy`) returns 0, whatever number of failed items
the copy reports; the library, and with it the outcome of the copy, is
arbitrary. -/
theorem main_returns_0_once_copy_is_reached (lib : MfuLib) (LUSTRE_SUPPORT : Bool) (rank : Int)
    (params_ptr : mfu_copy_params) (opts : List GetoptResult) (argpaths : List String)
    (h : ∃ c ∈ (main lib LUSTRE_SUPPORT rank params_ptr opts argpaths).trace,
      c.isCopy = true) :
    (main lib LUSTRE_SUPPORT rank params_ptr opts argpaths).status = 0 := by
  obtain ⟨c, hc, hcopy⟩ := h
  by_cases hv : main.valid lib argpaths = true
  · by_cases hu : (main.arguments lib LUSTRE_SUPPORT rank opts argpaths).usage = 0
    · obtain ⟨pre, post, flist, _, _, hrun⟩ :=
        main.copy_run lib LUSTRE_SUPPORT rank params_ptr opts argpaths hv hu
      rw [hrun]
    · have := (main.early_exit lib LUSTRE_SUPPORT rank params_ptr opts argpaths (Or.inr hu)).2 c hc
      rw [Call.touchesFlist_of_isCopy c hcopy] at this
      exact absurd this (by decide)
  · have hv2 : main.valid lib argpaths = false := by simpa using hv
    have := (main.early_exit lib LUSTRE_SUPPORT rank params_ptr opts argpaths (Or.inl hv2)).2 c hc
    rw [Call.touchesFlist_of_isCopy c hcopy] at this
    exact absurd this (by decide)

/-- C7 as amended, at `dcp -v /a/dir1 /a/dir2 /b` on rank 1 with a copy that
reports three failed items: the copy phase is reached and `main` returns 0. -/
theorem main_returns_0_once_copy_is_reached_at_two_dirs :
    (∃ c ∈ (main (lib_of true 3) false 1 params_data_foo [⟨'v', ""⟩]
        ["/a/dir1", "/a/dir2", "/b"]).trace, c.isCopy = true) ∧
    (main (lib_of true 3) false 1 params_data_foo [⟨'v', ""⟩]
      ["/a/dir1", "/a/dir2", "/b"]).status = 0 :=
  ⟨⟨Call.mfu_flist_copy ["/a/dir1", "/a/dir2"] false 0 3, by decide, rfl⟩,
    main_returns_0_once_copy_is_reached (lib_of true 3) false 1 params_data_foo
      [⟨'v', ""⟩] ["/a/dir1", "/a/dir2", "/b"]
      ⟨Call.mfu_flist_copy ["/a/dir1", "/a/dir2"] false 0 3, by decide, rfl⟩⟩

/-- C8: for every command line, if the path check reports the copy as invalid,
or the command line is a usage error (`h` or an unknown option, an input file
together with path arguments, or neither of the two), `main` returns 1 and its
trace holds no call that creates, walks, reads, stats, copies or frees a file
list. -/
theorem main_returns_1_without_work_on_invalid_or_usage (lib : MfuLib) (LUSTRE_SUPPORT : Bool)
    (rank : Int) (params_ptr : mfu_copy_params) (opts : List GetoptResult)
    (argpaths : List String)
    (h : main.valid lib argpaths = false ∨
      (∃ o ∈ opts, o.c = 'h' ∨ o.c = '?') ∨
      ((∃ o ∈ opts, o.c = 'i') ∧ argpaths ≠ []) ∨
      ((∀ o ∈ opts, o.c ≠ 'i') ∧ argpaths = [])) :
    (main lib LUSTRE_SUPPORT rank params_ptr opts argpaths).status = 1 ∧
    ∀ c ∈ (main lib LUSTRE_SUPPORT rank params_ptr opts argpaths).trace,
      c.touchesFlist = false := by
  apply main.early_exit
  rcases h with h | h
  · exact Or.inl h
  · exact Or.inr ((main.arguments_usage lib LUSTRE_SUPPORT rank opts argpaths).mpr h)

/-- C8 at `dcp -i list /a/file1 /b`, an input file together with path
arguments, with a path check that accepts: `main` returns 1 and touches no
file list. -/
theorem main_returns_1_without_work_on_input_and_paths :
    (main (lib_of true 0) false 0 params_data_foo [⟨'i', "list"⟩] ["/a/file1", "/b"]).status = 1 ∧
    ∀ c ∈ (main (lib_of true 0) false 0 params_data_foo [⟨'i', "list"⟩]
        ["/a/file1", "/b"]).trace, c.touchesFlist = false :=
  main_returns_1_without_work_on_invalid_or_usage (lib_of true 0) false 0 params_data_foo
    [⟨'i', "list"⟩] ["/a/file1", "/b"]
    (Or.inr (Or.inr (Or.inl ⟨⟨⟨'i', "list"⟩, by decide, rfl⟩, by decide⟩)))

/-- C9: in every run of `main` every call of `mfu_flist_copy` is passed the
preserve flag false, and at `dcp -p /a/file1 /b` the option loop sets the local
`preserve` to 1 and logs "Preserving file attributes." while the one copy call
of the run is passed false: the flag passed is `DCOPY_user_opts.preserve`,
which `main` never assigns. -/
theorem main_passes_preserve_false_despite_option_p :
    (∀ (lib : MfuLib) (LUSTRE_SUPPORT : Bool) (rank : Int) (params_ptr : mfu_copy_params)
        (opts : List GetoptResult) (argpaths : List String) (flist : mfu_flist)
        (preserve : Bool) (arg : Int) (failed : Nat),
      Call.mfu_flist_copy flist preserve arg failed ∈
          (main lib LUSTRE_SUPPORT rank params_ptr opts argpaths).trace →
        preserve = false) ∧
    (main.options (lib_of true 0) false 0 main.init [⟨'p', ""⟩]).preserve = 1 ∧
    Call.MFU_LOG MFU_LOG_INFO "Preserving file attributes." [] ∈
      (main (lib_of true 0) false 0 params_data_foo [⟨'p', ""⟩] ["/a/file1", "/b"]).trace ∧
    (main (lib_of true 0) false 0 params_data_foo [⟨'p', ""⟩] ["/a/file1", "/b"]).status = 0 ∧
    (main (lib_of true 0) false 0 params_data_foo [⟨'p', ""⟩] ["/a/file1", "/b"]).trace.filter
        Call.isCopy = [Call.mfu_flist_copy ["/a/file1"] false 0 0] := by
  refine ⟨?_, by decide, by decide, by decide, by decide⟩
  intro lib LUSTRE_SUPPORT rank params_ptr opts argpaths flist preserve arg failed hmem
  by_cases hv : main.valid lib argpaths = true
  · by_cases hu : (main.arguments lib LUSTRE_SUPPORT rank opts argpaths).usage = 0
    · obtain ⟨pre, post, fl, hpre, hpost, hrun⟩ :=
        main.copy_run lib LUSTRE_SUPPORT rank params_ptr opts argpaths hv hu
      rw [hrun] at hmem
      simp only [List.mem_append, List.mem_singleton] at hmem
      rcases hmem with (hmem | hmem) | hmem
      · exact absurd (hpre _ hmem) (by simp [Call.isCopy])
      · injection hmem with _ h2 _ _
      · exact absurd (hpost _ hmem) (by simp [Call.isCopy])
    · have := (main.early_exit lib LUSTRE_SUPPORT rank params_ptr opts argpaths (Or.inr hu)).2 _
        hmem
      exact absurd this (by simp [Call.touchesFlist])
  · have hv2 : main.valid lib argpaths = false := by simpa using hv
    have := (main.early_exit lib LUSTRE_SUPPORT rank params_ptr opts argpaths (Or.inl hv2)).2 _
      hmem
    exact absurd this (by simp [Call.touchesFlist])

/-! ## The destination index of `main` -/

/-- A guarded call keeps what the trace already holds. -/
theorem MainState.rank0_keeps (st : MainState) (rank : Int) (c x : Call) (h : x ∈ st.trace) :
    x ∈ (st.rank0 rank c).trace := by
  unfold MainState.rank0
  split_ifs
  · exact List.mem_append_left _ h
  · exact h

/-- Every run of `main` calls `mfu_param_path_check_copy` with the source
count `numpaths - 1` and the destination `&paths[numpaths-1]`. -/
theorem main.check_copy_call (lib : MfuLib) (LUSTRE_SUPPORT : Bool) (rank : Int)
    (params_ptr : mfu_copy_params) (opts : List GetoptResult) (argpaths : List String) :
    Call.mfu_param_path_check_copy (main.numpaths argpaths - 1) (main.destpath lib argpaths) ∈
      (main lib LUSTRE_SUPPORT rank params_ptr opts argpaths).trace := by
  have hmem : Call.mfu_param_path_check_copy (main.numpaths argpaths - 1)
      (main.destpath lib argpaths) ∈
      (main.arguments lib LUSTRE_SUPPORT rank opts argpaths).trace ++
        [Call.mfu_param_path_check_copy (main.numpaths argpaths - 1)
          (main.destpath lib argpaths)] :=
    List.mem_append_right _ (List.mem_singleton.mpr rfl)
  simp only [main]
  split_ifs
  · exact List.mem_append_left _ (MainState.rank0_keeps _ rank _ _ hmem)
  · exact List.mem_append_left _ (MainState.rank0_keeps _ rank _ _ hmem)
  · exact List.mem_append_left _ (List.mem_append_left _ hmem)

/-- With at least one path argument the destination index `numpaths - 1` is
an index of `paths` and `destpath` is its last element. -/
theorem main.destpath_of_paths (lib : MfuLib) (argpaths : List String) (h : argpaths ≠ []) :
    0 ≤ main.numpaths argpaths - 1 ∧
    main.numpaths argpaths - 1 < main.numpaths argpaths ∧
    main.numpaths argpaths = (main.paths lib argpaths).length ∧
    main.destpath lib argpaths = (main.paths lib argpaths).getLast? := by
  have hlen : 0 < argpaths.length := List.length_pos.mpr h
  have hn : main.numpaths argpaths = (argpaths.length : Int) := by
    simp [main.numpaths, h]
  have hp : main.paths lib argpaths = argpaths.map lib.mfu_param_path_set := by
    simp [main.paths, h]
  have hidx : ((argpaths.length : Int) - 1).toNat = argpaths.length - 1 := by omega
  refine ⟨by omega, by omega, by simp [hn, hp], ?_⟩
  have h0 : (0 : Int) ≤ (argpaths.length : Int) - 1 := by omega
  simp only [main.destpath, hn, hp, h0, if_true, hidx]
  rw [List.getLast?_eq_getElem?]
  simp

/-- C11: with at least one path argument the destination index `numpaths - 1`
is an index of `paths` and the source count is not negative, but on every
command line without path arguments, `dcp --input list` among them (which is
no usage error), `numpaths` is 0 and `paths` is empty: `main` calls
`mfu_param_path_check_copy` with the source count -1 and a destination
`&paths[-1]` that is no element of the array. -/
theorem main_destination_index_is_minus_one_without_paths :
    (∀ (lib : MfuLib) (argpaths : List String), argpaths ≠ [] →
      0 ≤ main.numpaths argpaths - 1 ∧
      main.numpaths argpaths - 1 < main.numpaths argpaths ∧
      main.numpaths argpaths = (main.paths lib argpaths).length ∧
      main.destpath lib argpaths = (main.paths lib argpaths).getLast?) ∧
    (∀ (lib : MfuLib) (LUSTRE_SUPPORT : Bool) (rank : Int) (params_ptr : mfu_copy_params)
        (opts : List GetoptResult),
      main.numpaths [] = 0 ∧
      main.numpaths [] - 1 = -1 ∧
      main.paths lib [] = [] ∧
      main.destpath lib [] = none ∧
      Call.mfu_param_path_check_copy (-1) none ∈
        (main lib LUSTRE_SUPPORT rank params_ptr opts []).trace) ∧
    (main.arguments (lib_of true 0) false 0 [⟨'i', "list"⟩] []).usage = 0 ∧
    Call.mfu_param_path_check_copy (-1) none ∈
      (main (lib_of true 0) false 0 params_data_foo [⟨'i', "list"⟩] []).trace ∧
    ¬ (0 ≤ main.numpaths [] - 1 ∧ main.numpaths [] - 1 < main.numpaths []) := by
  refine ⟨main.destpath_of_paths, ?_, by decide, by decide, by decide⟩
  intro lib LUSTRE_SUPPORT rank params_ptr opts
  have hn : main.numpaths [] - 1 = -1 := by decide
  have hd : main.destpath lib [] = none := by
    simp [main.destpath, main.numpaths]
  refine ⟨by decide, hn, by simp [main.paths], hd, ?_⟩
  have h := main.check_copy_call lib LUSTRE_SUPPORT rank params_ptr opts []
  rw [hn, hd] at h
  exact h

end Dcp
